import Mathlib

/-!
Verification development for the JARVIS conversational-assistant repository.

The embedding models, from the source:
  - a small JSON value type (tool arguments, tool results and message payloads
    are JSON values in the TypeScript source);
  - the tool-execution loop (handleToolCalls, src/server/index.ts), with the
    external Gmail/Calendar HTTP collaborators abstracted as state-threading
    oracles (one oracle per switch branch; each oracle returns the value the
    branch computes from the collaborator responses, or the thrown error
    message);
  - the MistralService response handling (getChatResponse, formatMessages,
    safeParseJson, src/server/index.ts), with the upstream fetch outcome
    abstracted as a data type covering transport errors, non-2xx responses,
    body-parse failures and well-formed bodies;
  - the chat endpoint orchestration (app.post /api/chat, src/server/index.ts),
    with the LLM provider abstracted as a state-threading oracle;
  - the ToolService registry and executor (src/unnamed/part_001), with the
    Gmail/Calendar collaborators abstracted as an invocation-logging oracle.
-/

/-- JSON values, as manipulated by the TypeScript source. Numbers are modelled
as integers (no claim depends on fractional values); JavaScript `undefined` is
collapsed to `null` (both are falsy and neither is produced where the claims
look). -/
inductive Json where
  | null : Json
  | bool (b : Bool) : Json
  | num (n : Int) : Json
  | str (s : String) : Json
  | arr (elems : List Json) : Json
  | obj (fields : List (String × Json)) : Json

/-- JavaScript truthiness of a JSON value: null/undefined, false, 0 and the
empty string are falsy; arrays and objects are always truthy. -/
def jsTruthy : Json → Bool
  | Json.null => false
  | Json.bool b => b
  | Json.num n => n != 0
  | Json.str s => s != ""
  | Json.arr _ => true
  | Json.obj _ => true

/-- Property access `j.k` in JavaScript: the first binding of the key in an
object, `null` (for `undefined`) otherwise. -/
def jget (j : Json) (k : String) : Json :=
  match j with
  | Json.obj fields =>
    match fields.find? (fun p => p.1 == k) with
    | some p => p.2
    | none => Json.null
  | _ => Json.null

mutual

/-- JSON.stringify, up to string escaping (no string the claims inspect needs
escapes). Object keys keep their insertion order, as in V8. -/
def stringify : Json → String
  | Json.null => "null"
  | Json.bool true => "true"
  | Json.bool false => "false"
  | Json.num n => toString n
  | Json.str s => "\"" ++ s ++ "\""
  | Json.arr xs => "[" ++ stringifyElems xs ++ "]"
  | Json.obj fs => "\x7b" ++ stringifyFields fs ++ "\x7d"

/-- Comma-separated serialization of array elements. -/
def stringifyElems : List Json → String
  | [] => ""
  | [x] => stringify x
  | x :: y :: xs => stringify x ++ "," ++ stringifyElems (y :: xs)

/-- Comma-separated serialization of object fields. -/
def stringifyFields : List (String × Json) → String
  | [] => ""
  | [(k, v)] => "\"" ++ k ++ "\":" ++ stringify v
  | (k, v) :: f :: fs => "\"" ++ k ++ "\":" ++ stringify v ++ "," ++ stringifyFields (f :: fs)

end

/-- Conversation roles, as in the session message type of src/server/index.ts. -/
inductive Role where
  | system : Role
  | user : Role
  | assistant : Role
  | tool : Role
deriving DecidableEq, BEq

/-- Shape produced by MistralService.formatToolCalls: the OpenAI-style
function-call record stored on the assistant turn (`type: 'function'` is
constant and elided; `function.arguments` is the JSON.stringify of the parsed
arguments). The `name` is Option String because the upstream
`call.function?.name` may be undefined. -/
structure FormattedToolCall where
  id : String
  name : Option String
  arguments : String
deriving DecidableEq, BEq

/-- One session message, mirroring the SessionData.messages element type of
src/server/index.ts. `content` is Option String so that a JavaScript
`undefined` content is representable. -/
structure Msg where
  role : Role
  content : Option String
  name : Option String
  tool_calls : Option (List FormattedToolCall)
  tool_call_id : Option String
deriving DecidableEq, BEq

/-- Default message used with List.getD. -/
def dMsg : Msg :=
  { role := Role.user, content := none, name := none, tool_calls := none, tool_call_id := none }

/-- Tool-call request as produced by MistralService.getChatResponse:
`{ id, name: call.function?.name, arguments: safeParseJson(...) }`. -/
structure ToolCallReq where
  id : String
  name : Option String
  arguments : Json

/-- Default request used with List.getD. -/
def dReq : ToolCallReq := { id := "", name := none, arguments := Json.null }

/-- Rendering of a possibly-undefined name inside a JavaScript template
literal, as in the backtick string of the default switch branch. -/
def showJsName : Option String → String
  | some s => s
  | none => "undefined"

/-- Result object of the default (unknown tool) branch of handleToolCalls:
`{ error: "Unknown tool call: <name>" }` (src/server/index.ts line 728). -/
def unknownResult (n : Option String) : Json :=
  Json.obj [("error", Json.str ("Unknown tool call: " ++ showJsName n))]

/-- Result object of the delete_calendar_event branch of handleToolCalls:
`{ success: true, message: 'Event deleted successfully' }`
(src/server/index.ts line 724). -/
def deleteSuccess : Json :=
  Json.obj [("success", Json.bool true), ("message", Json.str "Event deleted successfully")]

/-- External collaborators used by handleToolCalls (src/server/index.ts).
Each field abstracts the whole body of one switch branch's interaction with
the outside world, threading an abstract world state σ:
  - getEmails covers gmailService.getEmails plus the per-email
    gmailService.getEmail calls and the header projection of lines 662-673;
  - sendEmail, getCalendarEvents, createCalendarEvent, updateCalendarEvent
    cover the corresponding single service call (lines 677-719), returning
    the collaborator's JSON response or the thrown error message;
  - deleteCalendarEvent covers GoogleCalendarService.deleteEvent
    (lines 549-559): a completed fetch yields `Except.ok status` carrying the
    HTTP status code, which the source never inspects (node-fetch does not
    throw on non-2xx); a transport failure yields the thrown error message.
Each oracle receives the parsed `arguments` object of the tool call. -/
structure Services (σ : Type) where
  getEmails : σ → Json → σ × Except String Json
  sendEmail : σ → Json → σ × Except String Json
  getCalendarEvents : σ → Json → σ × Except String Json
  createCalendarEvent : σ → Json → σ × Except String Json
  updateCalendarEvent : σ → Json → σ × Except String Json
  deleteCalendarEvent : σ → Json → σ × Except String Nat

/-- The switch statement of handleToolCalls for a single tool call
(src/server/index.ts lines 653-729). A JavaScript switch over a string is an
equality chain. The delete branch discards the fetch outcome and returns the
fixed success object; the default branch performs no external call and
returns the unknown-tool error object (not an exception). -/
def execToolCall {σ : Type} (sv : Services σ) (s : σ) (tc : ToolCallReq) :
    σ × Except String Json :=
  match tc.name with
  | none => (s, Except.ok (unknownResult none))
  | some n =>
    if n = "get_emails" then sv.getEmails s tc.arguments
    else if n = "send_email" then sv.sendEmail s tc.arguments
    else if n = "get_calendar_events" then sv.getCalendarEvents s tc.arguments
    else if n = "create_calendar_event" then sv.createCalendarEvent s tc.arguments
    else if n = "update_calendar_event" then sv.updateCalendarEvent s tc.arguments
    else if n = "delete_calendar_event" then
      let p := sv.deleteCalendarEvent s tc.arguments
      (p.1, p.2.map (fun _ => deleteSuccess))
    else (s, Except.ok (unknownResult (some n)))

/-- One element of the `results` array of handleToolCalls: the try branch
pushes `{ toolCallId, name, result }`, the catch branch pushes
`{ toolCallId, name, error }` (src/server/index.ts lines 731-743). -/
inductive ToolResultEntry where
  | success (toolCallId : String) (name : Option String) (result : Json)
  | failure (toolCallId : String) (name : Option String) (error : String)

/-- The toolCallId carried by a result entry. -/
def ToolResultEntry.toolCallId : ToolResultEntry → String
  | ToolResultEntry.success t _ _ => t
  | ToolResultEntry.failure t _ _ => t

/-- Default entry used with List.getD. -/
def dEntry : ToolResultEntry := ToolResultEntry.failure "" none ""

/-- Packaging of one call's outcome as a results-array element: a normal
completion pushes a success record, a caught exception pushes an error
record with the exception's message. -/
def mkEntry (tc : ToolCallReq) (r : Except String Json) : ToolResultEntry :=
  match r with
  | Except.ok v => ToolResultEntry.success tc.id tc.name v
  | Except.error e => ToolResultEntry.failure tc.id tc.name e

/-- The tool-execution loop of src/server/index.ts (handleToolCalls, lines
645-747): for each requested call in order, run the switch inside try/catch
and push exactly one results entry; a caught failure does not leave the loop.
The world state is threaded through the external calls. -/
def handleToolCalls {σ : Type} (sv : Services σ) (s : σ) :
    List ToolCallReq → σ × List ToolResultEntry
  | [] => (s, [])
  | tc :: rest =>
    let r := execToolCall sv s tc
    let q := handleToolCalls sv r.1 rest
    (q.1, mkEntry tc r.2 :: q.2)

/-- Content of a tool turn appended by the chat endpoint:
`JSON.stringify(result.result || result.error)` (src/server/index.ts line
853). A falsy `result.result` (and, for error entries, an absent one) falls
through to the error operand; stringifying the absent operand yields
JavaScript undefined, modelled as `none`. -/
def toolTurnContent : ToolResultEntry → Option String
  | ToolResultEntry.success _ _ v =>
      if jsTruthy v then some (stringify v) else none
  | ToolResultEntry.failure _ _ e =>
      if e != "" then some (stringify (Json.str e)) else none

/-- The tool turn pushed for one results entry (src/server/index.ts lines
850-856). -/
def toolMsg (e : ToolResultEntry) : Msg :=
  { role := Role.tool, content := toolTurnContent e, name := none,
    tool_calls := none, tool_call_id := some e.toolCallId }

/-- MistralService.formatToolCalls (src/server/index.ts lines 72-81). -/
def formatToolCalls (tcs : List ToolCallReq) : List FormattedToolCall :=
  tcs.map (fun c => { id := c.id, name := c.name, arguments := stringify c.arguments })

/-- The user turn pushed by the chat endpoint (line 828). -/
def userMsg (text : String) : Msg :=
  { role := Role.user, content := some text, name := none,
    tool_calls := none, tool_call_id := none }

/-- A plain assistant turn (lines 860 and 863): no tool_calls field. -/
def assistantMsg (content : String) : Msg :=
  { role := Role.assistant, content := some content, name := none,
    tool_calls := none, tool_call_id := none }

/-- The assistant turn recording the requested tool calls (lines 840-844);
`content || ''` is the identity on the String content the service returns. -/
def assistantToolMsg (content : String) (tcs : List ToolCallReq) : Msg :=
  { role := Role.assistant, content := some content, name := none,
    tool_calls := some (formatToolCalls tcs), tool_call_id := none }

/-- Names of the six tool definitions returned by
MistralService.getToolDefinitions (src/server/index.ts lines 222-414). The
parameter schemas are elided: no claim inspects them, only whether the
definitions are passed to the LLM at all. -/
def toolDefinitions : List String :=
  ["get_emails", "send_email", "get_calendar_events",
   "create_calendar_event", "update_calendar_event", "delete_calendar_event"]

/-- Whether a tool-call name hits a non-default branch of the handleToolCalls
switch, i.e. is one of the registered tool names. -/
def isKnownName : Option String → Bool
  | none => false
  | some n =>
    n == "get_emails" || n == "send_email" || n == "get_calendar_events" ||
    n == "create_calendar_event" || n == "update_calendar_event" ||
    n == "delete_calendar_event"

/-- Value returned by MistralService.getChatResponse: a content string and the
optionally present parsed tool-call requests. -/
structure ChatResult where
  content : String
  toolCalls : Option (List ToolCallReq)

/-- The `function` member of an upstream tool call; both fields may be absent
(the source reads them with optional chaining). -/
structure UpstreamFunction where
  name : Option String
  arguments : Option String

/-- One element of `assistantMessage.tool_calls` in the upstream body. -/
structure UpstreamToolCall where
  id : String
  function : Option UpstreamFunction

/-- The `message` member of an upstream choice; `content` none models both
JSON null and an absent field. -/
structure UpstreamChoiceMsg where
  content : Option String
  tool_calls : Option (List UpstreamToolCall)

/-- One element of the upstream `choices` array. -/
structure UpstreamChoice where
  message : Option UpstreamChoiceMsg

/-- The parsed upstream response body; `choices := none` models a body with no
`choices` member, on which `result.choices[0]` throws a TypeError. -/
structure UpstreamBody where
  choices : Option (List UpstreamChoice)

/-- Outcome of the fetch to the Mistral API as seen by getChatResponse:
either the fetch itself threw (network/transport error), or a response
arrived with `response.ok`, its status code, and the result of
`response.json()` (which throws on an unparseable body, modelled by the
error side). -/
inductive FetchOutcome where
  | transportError (msg : String)
  | httpResponse (ok : Bool) (status : Nat) (body : Except String UpstreamBody)

/-- MistralService.safeParseJson (src/server/index.ts lines 202-209):
`jsonString ? JSON.parse(jsonString) : {}` under try/catch returning `{}`.
The behaviour of the runtime JSON.parse is abstracted as the oracle `parse`
(`none` = the parse threw). An absent or empty argument string yields the
empty object without consulting the parser. -/
def safeParseJson (parse : String → Option Json) (jsonString : Option String) : Json :=
  match jsonString with
  | none => Json.obj []
  | some s =>
    if s = "" then Json.obj []
    else
      match parse s with
      | some v => v
      | none => Json.obj []

/-- Projection of one upstream tool call to the service's tool-call record
(src/server/index.ts lines 154-158). -/
def parseUpstreamToolCall (parse : String → Option Json) (c : UpstreamToolCall) : ToolCallReq :=
  { id := c.id,
    name := c.function.bind (fun f => f.name),
    arguments := safeParseJson parse (c.function.bind (fun f => f.arguments)) }

/-- The fixed message returned by the catch-all error path of
getChatResponse (src/server/index.ts line 163). -/
def sorryMessage : String :=
  "Sorry, I encountered an error processing your request. Please try again later."

/-- The fixed fallback substituted when the upstream message has falsy
content (src/server/index.ts line 153). -/
def apologyContent : String :=
  "I apologize, but I had trouble processing that request. Could you please try again?"

/-- MistralService.getChatResponse (src/server/index.ts lines 84-166),
reduced to its handling of the fetch outcome. Every throwing path (missing
API key, fetch transport error, non-ok status, unparseable body, and the
TypeError from reading `choices[0]` of an absent `choices`) is caught by the
surrounding try/catch and becomes the fixed sorryMessage result with no tool
calls. An empty `choices` array or an absent `message`/falsy `content` does
not throw: it falls back to apologyContent, and tool calls mirror
`assistantMessage?.tool_calls` through safeParseJson. -/
def getChatResponse (apiKeyPresent : Bool) (parse : String → Option Json)
    (outcome : FetchOutcome) : ChatResult :=
  if !apiKeyPresent then { content := sorryMessage, toolCalls := none }
  else
    match outcome with
    | FetchOutcome.transportError _ => { content := sorryMessage, toolCalls := none }
    | FetchOutcome.httpResponse ok _ body =>
      if !ok then { content := sorryMessage, toolCalls := none }
      else
        match body with
        | Except.error _ => { content := sorryMessage, toolCalls := none }
        | Except.ok b =>
          match b.choices with
          | none => { content := sorryMessage, toolCalls := none }
          | some choices =>
            let am := choices.head?.bind (fun c => c.message)
            { content :=
                match am.bind (fun m => m.content) with
                | some s => if s = "" then apologyContent else s
                | none => apologyContent,
              toolCalls :=
                (am.bind (fun m => m.tool_calls)).map
                  (List.map (parseUpstreamToolCall parse)) }

/-- The failure classes of an LLM call enumerated by the spec: transport
error, non-2xx response, unparseable body, or a body without `choices`. -/
def llmFailure : FetchOutcome → Prop
  | FetchOutcome.transportError _ => True
  | FetchOutcome.httpResponse ok _ body =>
    ok = false ∨ (∃ e, body = Except.error e) ∨ (∃ b, body = Except.ok b ∧ b.choices = none)

/-- Field stripping performed on each forwarded message by
MistralService.formatMessages: the conditional spreads drop a falsy `name`
and `tool_call_id` (empty string or absent); `content` and `tool_calls` are
kept as they are (an array, even empty, is truthy). -/
def stripMsg (m : Msg) : Msg :=
  { role := m.role, content := m.content,
    name := match m.name with
      | some s => if s = "" then none else some s
      | none => none,
    tool_calls := m.tool_calls,
    tool_call_id := match m.tool_call_id with
      | some s => if s = "" then none else some s
      | none => none }

/-- Loop body of MistralService.formatMessages (src/server/index.ts lines
168-200), threading `lastRole`, the role of the last message pushed so far
(`null` initially; skipped messages do not update it). System messages are
skipped; a tool message is skipped unless lastRole is exactly 'assistant'. -/
def formatMessagesGo (lastRole : Option Role) : List Msg → List Msg
  | [] => []
  | m :: rest =>
    if m.role = Role.system then formatMessagesGo lastRole rest
    else if m.role = Role.tool ∧ lastRole ≠ some Role.assistant then
      formatMessagesGo lastRole rest
    else stripMsg m :: formatMessagesGo (some m.role) rest

/-- MistralService.formatMessages. -/
def formatMessages (msgs : List Msg) : List Msg :=
  formatMessagesGo none msgs

/-- Observable outcome of one POST /api/chat exchange:
  - `messages`: the full in-memory message list at the end of the handler;
  - `stored`: what is written back to the session, `messages.slice(-10)`;
  - `response`: the JSON replied to the HTTP caller,
    `messages[messages.length - 1]`;
  - `toolRounds`: how many times handleToolCalls ran during the exchange. -/
structure Exchange where
  messages : List Msg
  stored : List Msg
  response : Option Msg
  toolRounds : Nat

/-- The chat endpoint orchestration (app.post('/api/chat'),
src/server/index.ts lines 819-873). The LLM provider (the composition of
getChatResponse with the network) is abstracted as the oracle `llm`,
threading its own state τ and receiving exactly what the source passes:
the message list and the tools argument (`some toolDefinitions` when the
user has an access token, omitted — `none` — otherwise, and always omitted
on the second call). Branching follows `if (toolCalls?.length)`: the tool
branch is taken exactly when the reply's toolCalls is a non-empty list. -/
def chatExchange {σ τ : Type} (llm : τ → List Msg → Option (List String) → τ × ChatResult)
    (sv : Services σ) (t : τ) (s : σ) (hasToken : Bool)
    (history : List Msg) (text : String) : Exchange × τ × σ :=
  let msgs0 := history ++ [userMsg text]
  let tools := if hasToken then some toolDefinitions else none
  let c1 := llm t msgs0 tools
  match c1.2.toolCalls with
  | some (tc :: rest) =>
    let calls := tc :: rest
    let m1 := msgs0 ++ [assistantToolMsg c1.2.content calls]
    let hr := handleToolCalls sv s calls
    let m2 := m1 ++ hr.2.map toolMsg
    let c2 := llm c1.1 m2 none
    let m3 := m2 ++ [assistantMsg c2.2.content]
    ({ messages := m3, stored := m3.drop (m3.length - 10),
       response := m3.getLast?, toolRounds := 1 }, c2.1, hr.1)
  | _ =>
    let m3 := msgs0 ++ [assistantMsg c1.2.content]
    ({ messages := m3, stored := m3.drop (m3.length - 10),
       response := m3.getLast?, toolRounds := 0 }, c1.1, s)

/-- An LLM oracle wrapper whose state records, for each call the orchestrator
makes, the tools argument it was given. `f` is the underlying reply function. -/
def loggingLLM (f : List Msg → Option (List String) → ChatResult) :
    List (Option (List String)) → List Msg → Option (List String) →
    List (Option (List String)) × ChatResult :=
  fun log msgs tools => (log ++ [tools], f msgs tools)

namespace ToolService

/-- Integration function descriptor (src/unnamed/part_001 lines 5-10). The
`parameters` member is a plain object mapping parameter names to type-string
annotations; it is modelled as an association list. -/
structure IntegrationFunction where
  name : String
  description : String
  parameters : List (String × String)
  category : String
deriving DecidableEq

/-- The static catalog `functions` of ToolService (src/unnamed/part_001
lines 13-62). -/
def functions : List IntegrationFunction :=
  [ { name := "getEmails", description := "Get emails from Gmail inbox",
      parameters := [("query", "string?"), ("maxResults", "number?")], category := "gmail" },
    { name := "sendEmail", description := "Send an email via Gmail",
      parameters := [("to", "string"), ("subject", "string"), ("body", "string")],
      category := "gmail" },
    { name := "searchEmails", description := "Search emails in Gmail",
      parameters := [("query", "string")], category := "gmail" },
    { name := "getCalendarEvents", description := "Get calendar events",
      parameters := [("timeMin", "string?"), ("timeMax", "string?")], category := "calendar" },
    { name := "getTodayEvents", description := "Get today's calendar events",
      parameters := [], category := "calendar" },
    { name := "createCalendarEvent", description := "Create a new calendar event",
      parameters := [("summary", "string"), ("start", "string"), ("end", "string"),
                     ("description", "string?"), ("location", "string?")],
      category := "calendar" },
    { name := "updateCalendarEvent", description := "Update an existing calendar event",
      parameters := [("eventId", "string"), ("updates", "object")], category := "calendar" },
    { name := "deleteCalendarEvent", description := "Delete a calendar event",
      parameters := [("eventId", "string")], category := "calendar" } ]

/-- ASCII lower-casing of one character, the effect of JavaScript
toLowerCase() on the ASCII-only catalog strings. -/
def lowerChar (c : Char) : Char :=
  if 65 ≤ c.toNat ∧ c.toNat ≤ 90 then Char.ofNat (c.toNat + 32) else c

/-- Prefix test on character lists. -/
def isPrefixOfB : List Char → List Char → Bool
  | [], _ => true
  | _ :: _, [] => false
  | a :: as, b :: bs => a == b && isPrefixOfB as bs

/-- Substring test on character lists, the semantics of JavaScript
String.prototype.includes: the empty list is a substring of everything. -/
def containsSub (l q : List Char) : Bool :=
  isPrefixOfB q l ||
    match l with
    | [] => false
    | _ :: t => containsSub t q

/-- Case-insensitive substring test,
`s.toLowerCase().includes(q.toLowerCase())`. -/
def containsCI (s q : String) : Bool :=
  containsSub (s.data.map lowerChar) (q.data.map lowerChar)

/-- ToolService.searchIntegrationFunction (src/unnamed/part_001 lines 64-72):
filter the catalog by a case-insensitive substring match of the query against
name, description or category. -/
def searchIntegrationFunction (query : String) : List IntegrationFunction :=
  functions.filter (fun fn =>
    containsCI fn.name query || containsCI fn.description query ||
    containsCI fn.category query)

/-- One invocation of an external collaborator performed by
ToolService.callIntegrationFunction, carrying the argument values the source
passes (src/unnamed/part_001 lines 80-130). `eventEnd` stands for the source
parameter named `end`. -/
inductive CollabCall where
  | getEmails (query maxResults : Json)
  | sendEmail (toAddr subject body : Json)
  | searchEmails (query : Json)
  | getEvents (timeMin timeMax : Json)
  | getTodayEvents
  | createEvent (summary start eventEnd description location : Json)
  | updateEvent (eventId updates : Json)
  | deleteEvent (eventId : Json)

/-- ToolService.callIntegrationFunction (src/unnamed/part_001 lines 74-131):
look the name up in the catalog (unknown names throw "Function <name> not
found"), then dispatch on the name, validating the required parameters by
JavaScript truthiness before invoking the collaborator. The collaborator is
the oracle `collab` (an `Except.error` is a thrown exception propagating to
the caller); the second component of the result lists the collaborator
invocations actually performed, in order. -/
def callIntegrationFunction (collab : CollabCall → Except String Json)
    (name : String) (parameters : Json) : Except String Json × List CollabCall :=
  if (functions.find? (fun f => f.name == name)).isNone then
    (Except.error ("Function " ++ name ++ " not found"), [])
  else if name == "getEmails" then
    let c := CollabCall.getEmails (jget parameters "query") (jget parameters "maxResults")
    (collab c, [c])
  else if name == "sendEmail" then
    if !jsTruthy (jget parameters "to") || !jsTruthy (jget parameters "subject") ||
        !jsTruthy (jget parameters "body") then
      (Except.error "Missing required parameters: to, subject, body", [])
    else
      let c := CollabCall.sendEmail (jget parameters "to") (jget parameters "subject")
        (jget parameters "body")
      (collab c, [c])
  else if name == "searchEmails" then
    if !jsTruthy (jget parameters "query") then
      (Except.error "Missing required parameter: query", [])
    else
      let c := CollabCall.searchEmails (jget parameters "query")
      (collab c, [c])
  else if name == "getCalendarEvents" then
    let c := CollabCall.getEvents (jget parameters "timeMin") (jget parameters "timeMax")
    (collab c, [c])
  else if name == "getTodayEvents" then
    (collab CollabCall.getTodayEvents, [CollabCall.getTodayEvents])
  else if name == "createCalendarEvent" then
    if !jsTruthy (jget parameters "summary") || !jsTruthy (jget parameters "start") ||
        !jsTruthy (jget parameters "end") then
      (Except.error "Missing required parameters: summary, start, end", [])
    else
      let c := CollabCall.createEvent (jget parameters "summary") (jget parameters "start")
        (jget parameters "end") (jget parameters "description") (jget parameters "location")
      (collab c, [c])
  else if name == "updateCalendarEvent" then
    if !jsTruthy (jget parameters "eventId") || !jsTruthy (jget parameters "updates") then
      (Except.error "Missing required parameters: eventId, updates", [])
    else
      let c := CollabCall.updateEvent (jget parameters "eventId") (jget parameters "updates")
      (collab c, [c])
  else if name == "deleteCalendarEvent" then
    if !jsTruthy (jget parameters "eventId") then
      (Except.error "Missing required parameter: eventId", [])
    else
      let c := CollabCall.deleteEvent (jget parameters "eventId")
      match collab c with
      | Except.ok _ => (Except.ok (Json.obj [("success", Json.bool true)]), [c])
      | Except.error e => (Except.error e, [c])
  else
    (Except.error ("Function " ++ name ++ " not implemented"), [])

end ToolService

/-- Services oracle with a trivial world: every collaborator call succeeds
with a null result, and a delete fetch completes with status 200. Used to
run concrete exchanges. -/
def trivialServices : Services Unit :=
  { getEmails := fun s _ => (s, Except.ok Json.null),
    sendEmail := fun s _ => (s, Except.ok Json.null),
    getCalendarEvents := fun s _ => (s, Except.ok Json.null),
    createCalendarEvent := fun s _ => (s, Except.ok Json.null),
    updateCalendarEvent := fun s _ => (s, Except.ok Json.null),
    deleteCalendarEvent := fun s _ => (s, Except.ok 200) }

/-- Nine distinct tool-call requests for the registered get_emails tool, as
an LLM reply may legally contain. -/
def nineCalls : List ToolCallReq :=
  (List.range 9).map (fun i =>
    { id := "call" ++ toString i, name := some "get_emails", arguments := Json.obj [] })

/-- Concrete LLM oracle: when offered tools it requests the nine calls, on
the follow-up call (no tools offered) it answers plainly. -/
def cexLLM (t : Unit) (_msgs : List Msg) (tools : Option (List String)) :
    Unit × ChatResult :=
  match tools with
  | some _ => (t, { content := "", toolCalls := some nineCalls })
  | none => (t, { content := "All done", toolCalls := none })

/-- The exchange produced by cexLLM against trivialServices from an empty
stored history. -/
def cexExchange : Exchange :=
  (chatExchange cexLLM trivialServices () () true [] "busy day").1

/-- Whether some message strictly before index i in the list is an assistant
message whose tool_calls include the given tool_call_id: the formalization of
"the assistant turn that issued this tool turn's request is also kept". -/
def hasIssuerBefore (l : List Msg) (i : Nat) (tid : Option String) : Bool :=
  (List.range i).any (fun j =>
    let mj := l.getD j dMsg
    mj.role == Role.assistant &&
      (match mj.tool_calls, tid with
       | some fcs, some t => fcs.any (fun fc => fc.id == t)
       | _, _ => false))

/-- The pairing invariant of claim C2 on a message list: every tool message
is preceded (anywhere earlier in the list) by the assistant message bearing
the tool call it answers. -/
def issuerKept (l : List Msg) : Bool :=
  (List.range l.length).all (fun i =>
    let mi := l.getD i dMsg
    !(mi.role == Role.tool) || hasIssuerBefore l i mi.tool_call_id)

/-- An assistant message without tool calls, followed by a tool message: the
failing input of claim C5. -/
def assistantPlain : Msg := assistantMsg "Sure."

/-- A tool message answering the call id id1. -/
def toolOrphan : Msg :=
  { role := Role.tool, content := some "result", name := none,
    tool_calls := none, tool_call_id := some "id1" }

/-- The failing message history of claim C5. -/
def ex5 : List Msg := [assistantPlain, toolOrphan]

/-- Default upstream tool call used with List.getD. -/
def dUp : UpstreamToolCall := { id := "", function := none }

/-- Default descriptor used with List.getD. -/
def dFn : ToolService.IntegrationFunction :=
  { name := "", description := "", parameters := [], category := "" }

/-- A JSON.parse oracle on which every parse throws: models argument strings
that are not valid JSON. -/
def parseNone : String → Option Json := fun _ => none

/-- A completed fetch with a 500 status: `response.ok` is false. -/
def outcome500 : FetchOutcome :=
  FetchOutcome.httpResponse false 500 (Except.error "Internal Server Error")

/-- An upstream tool call whose arguments string is not valid JSON. -/
def upBadCall : UpstreamToolCall :=
  { id := "call1",
    function := some { name := some "send_email", arguments := some "not json" } }

/-- An upstream body whose single choice requests one send_email call with an
unparseable arguments string. -/
def bodyBadArgs : UpstreamBody :=
  { choices := some
      [{ message := some { content := none, tool_calls := some [upBadCall] } }] }

/-- The fetch outcome delivering bodyBadArgs with a 200 response. -/
def outcomeBadArgs : FetchOutcome :=
  FetchOutcome.httpResponse true 200 (Except.ok bodyBadArgs)

/-- Three distinct tool-call requests for the registered get_emails tool. -/
def threeCalls : List ToolCallReq :=
  (List.range 3).map (fun i =>
    { id := "call" ++ toString i, name := some "get_emails", arguments := Json.obj [] })

/-- Stateless LLM reply function requesting threeCalls when tools are offered
and answering plainly otherwise. -/
def fW : List Msg → Option (List String) → ChatResult :=
  fun _ tools =>
    match tools with
    | some _ => { content := "", toolCalls := some threeCalls }
    | none => { content := "Here is what I found.", toolCalls := none }

/-- Concrete stateful LLM oracle built on fW. -/
def cexLLM3 (t : Unit) (msgs : List Msg) (tools : Option (List String)) :
    Unit × ChatResult :=
  (t, fW msgs tools)

/-- A collaborator oracle for ToolService on which every call succeeds with a
null result. -/
def collabNull : ToolService.CollabCall → Except String Json := fun _ => Except.ok Json.null

/-- A sendEmail parameter object with all three required fields present and
non-empty. -/
def paramsAll : Json :=
  Json.obj [("to", Json.str "ada@example.org"), ("subject", Json.str "Hello"),
            ("body", Json.str "Hi there")]

/-- A sendEmail parameter object missing subject and body. -/
def paramsMissing : Json :=
  Json.obj [("to", Json.str "ada@example.org")]

/-- A delete_calendar_event tool call for the event evt123. -/
def tcDel : ToolCallReq :=
  { id := "d1", name := some "delete_calendar_event",
    arguments := Json.obj [("event_id", Json.str "evt123")] }

/-- Services oracle whose delete fetch completes with status 404 (event not
found), everything else as in trivialServices. -/
def services404 : Services Unit :=
  { trivialServices with deleteCalendarEvent := fun s _ => (s, Except.ok 404) }

/-- A get_emails tool call. -/
def tcGet : ToolCallReq :=
  { id := "g1", name := some "get_emails", arguments := Json.obj [] }

/-- A tool call whose name foo_bar is not registered. -/
def uFoo : ToolCallReq :=
  { id := "u1", name := some "foo_bar", arguments := Json.obj [] }

/-- Sibling calls preceding the unknown call in the C8 witness. -/
def l1W : List ToolCallReq := [tcGet]

/-- Sibling calls following the unknown call in the C8 witness. -/
def l2W : List ToolCallReq := [tcDel]

/-- Two tool calls, the first unknown, for the C1 witness. -/
def callsW : List ToolCallReq := [uFoo, tcDel]

theorem handle_len {σ : Type} (sv : Services σ) (s : σ) (calls : List ToolCallReq) :
    ((handleToolCalls sv s calls).2).length = calls.length := by
  induction calls generalizing s with
  | nil => rfl
  | cons tc rest ih => simp [handleToolCalls, ih]

theorem mkEntry_toolCallId (tc : ToolCallReq) (r : Except String Json) :
    (mkEntry tc r).toolCallId = tc.id := by
  cases r <;> rfl

theorem handle_getD {σ : Type} (sv : Services σ) (s : σ) (calls : List ToolCallReq)
    (i : Nat) (hi : i < calls.length) :
    (handleToolCalls sv s calls).2.getD i dEntry =
      mkEntry (calls.getD i dReq)
        (execToolCall sv (handleToolCalls sv s (calls.take i)).1 (calls.getD i dReq)).2 := by
  induction calls generalizing s i with
  | nil => exact absurd hi (Nat.not_lt_zero i)
  | cons tc rest ih =>
    cases i with
    | zero => simp [handleToolCalls]
    | succ j =>
      have hj : j < rest.length := Nat.lt_of_succ_lt_succ hi
      simp only [handleToolCalls, List.getD_cons_succ, List.take_succ_cons]
      exact ih _ j hj

theorem handle_append {σ : Type} (sv : Services σ) (s : σ) (l1 l2 : List ToolCallReq) :
    handleToolCalls sv s (l1 ++ l2) =
      ((handleToolCalls sv (handleToolCalls sv s l1).1 l2).1,
       (handleToolCalls sv s l1).2 ++ (handleToolCalls sv (handleToolCalls sv s l1).1 l2).2) := by
  induction l1 generalizing s with
  | nil => simp [handleToolCalls]
  | cons tc rest ih => simp [handleToolCalls, ih]

theorem execToolCall_unknown {σ : Type} (sv : Services σ) (s : σ) (tc : ToolCallReq)
    (hu : isKnownName tc.name = false) :
    execToolCall sv s tc = (s, Except.ok (unknownResult tc.name)) := by
  cases hn : tc.name with
  | none => simp [execToolCall, hn]
  | some n =>
    rw [hn] at hu
    simp only [isKnownName, Bool.or_eq_false_iff, beq_eq_false_iff_ne, ne_eq] at hu
    obtain ⟨⟨⟨⟨⟨h1, h2⟩, h3⟩, h4⟩, h5⟩, h6⟩ := hu
    simp [execToolCall, hn, h1, h2, h3, h4, h5, h6]

theorem getLast_append_single {α : Type} (l : List α) (a : α) :
    (l ++ [a]).getLast? = some a := by
  rw [List.getLast?_append_of_ne_nil l (by simp)]
  rfl

theorem getLast_cons_append_single {α : Type} (x : α) (l : List α) (a : α) :
    (x :: (l ++ [a])).getLast? = some a := by
  rw [← List.cons_append]
  exact getLast_append_single _ _

/-- C1: for every ordered list of tool-call requests handed to the
tool-execution loop handleToolCalls, exactly one results entry is produced
per request and in the same order: the results list has the requests'
length, the i-th entry carries a toolCallId equal to the i-th request's id
(and so does the tool turn built from it), and the i-th entry is exactly the
packaging of the i-th request's own execution from the state its
predecessors left — so one call's failure never prevents the execution of
the later calls, and a failed call contributes the failure entry carrying
its error text. -/
theorem handleToolCalls_one_result_per_request {σ : Type} (sv : Services σ) (s : σ)
    (calls : List ToolCallReq) :
    ((handleToolCalls sv s calls).2).length = calls.length ∧
    (∀ i, i < calls.length →
      ((handleToolCalls sv s calls).2.getD i dEntry).toolCallId = (calls.getD i dReq).id) ∧
    (∀ i, i < calls.length →
      (handleToolCalls sv s calls).2.getD i dEntry =
        mkEntry (calls.getD i dReq)
          (execToolCall sv (handleToolCalls sv s (calls.take i)).1 (calls.getD i dReq)).2) ∧
    (∀ i, i < calls.length →
      (toolMsg ((handleToolCalls sv s calls).2.getD i dEntry)).tool_call_id =
        some (calls.getD i dReq).id) := by
  refine ⟨handle_len sv s calls, ?_, handle_getD sv s calls, ?_⟩
  · intro i hi
    rw [handle_getD sv s calls i hi]
    exact mkEntry_toolCallId _ _
  · intro i hi
    rw [handle_getD sv s calls i hi]
    simp [toolMsg, mkEntry_toolCallId]

/-- Witness for C1 at a concrete two-request list whose first call has an
unregistered name: both entries exist and echo their request ids. -/
theorem handleToolCalls_one_result_per_request_w :
    ((handleToolCalls trivialServices () callsW).2).length = callsW.length ∧
    ((handleToolCalls trivialServices () callsW).2.getD 0 dEntry).toolCallId = "u1" ∧
    ((handleToolCalls trivialServices () callsW).2.getD 1 dEntry).toolCallId = "d1" := by
  have h := handleToolCalls_one_result_per_request trivialServices () callsW
  exact ⟨h.1, h.2.1 0 (by decide), h.2.1 1 (by decide)⟩

/-- C8: a tool-call request whose name is not registered takes the default
switch branch: it contributes a results entry whose value is the
unknown-tool error object (no exception), that error is the very text
embedded in the request's tool turn, and the sibling requests around it
execute exactly as they would without it — the results list is the sibling
results of the prefix, the error entry, and the sibling results of the
suffix computed from the unchanged world state. -/
theorem handleToolCalls_unknown_isolated {σ : Type} (sv : Services σ) (s : σ)
    (l1 l2 : List ToolCallReq) (u : ToolCallReq)
    (hu : isKnownName u.name = false) :
    (handleToolCalls sv s (l1 ++ u :: l2)).2 =
      (handleToolCalls sv s l1).2 ++
        ToolResultEntry.success u.id u.name (unknownResult u.name) ::
          (handleToolCalls sv (handleToolCalls sv s l1).1 l2).2 ∧
    toolTurnContent (ToolResultEntry.success u.id u.name (unknownResult u.name)) =
      some (stringify (unknownResult u.name)) ∧
    (handleToolCalls sv s (l1 ++ u :: l2)).1 =
      (handleToolCalls sv (handleToolCalls sv s l1).1 l2).1 := by
  have hstep : handleToolCalls sv (handleToolCalls sv s l1).1 (u :: l2) =
      ((handleToolCalls sv (handleToolCalls sv s l1).1 l2).1,
       ToolResultEntry.success u.id u.name (unknownResult u.name) ::
         (handleToolCalls sv (handleToolCalls sv s l1).1 l2).2) := by
    simp [handleToolCalls, execToolCall_unknown sv _ u hu, mkEntry]
  refine ⟨?_, by simp [toolTurnContent, jsTruthy, unknownResult], ?_⟩
  · rw [handle_append sv s l1 (u :: l2), hstep]
  · rw [handle_append sv s l1 (u :: l2), hstep]

/-- Witness for C8: foo_bar between a get_emails and a delete call; its
entry is the unknown-tool error object and the siblings are undisturbed. -/
theorem handleToolCalls_unknown_isolated_w :
    (handleToolCalls trivialServices () (l1W ++ uFoo :: l2W)).2 =
      (handleToolCalls trivialServices () l1W).2 ++
        ToolResultEntry.success "u1" (some "foo_bar") (unknownResult (some "foo_bar")) ::
          (handleToolCalls trivialServices
            ((handleToolCalls trivialServices () l1W).1) l2W).2 :=
  (handleToolCalls_unknown_isolated trivialServices () l1W l2W uFoo (by decide)).1

/-- C10: a delete_calendar_event tool call whose HTTP fetch completes — with
any status whatsoever, 404 included — produces the fixed
`{success: true, message: 'Event deleted successfully'}` result, which is
embedded in the tool turn as a success: GoogleCalendarService.deleteEvent
never inspects the response. -/
theorem deleteEvent_ignores_status {σ : Type} (sv : Services σ) (s sNext : σ)
    (tc : ToolCallReq) (status : Nat)
    (hname : tc.name = some "delete_calendar_event")
    (hdel : sv.deleteCalendarEvent s tc.arguments = (sNext, Except.ok status)) :
    execToolCall sv s tc = (sNext, Except.ok deleteSuccess) ∧
    (handleToolCalls sv s [tc]).2 =
      [ToolResultEntry.success tc.id tc.name deleteSuccess] ∧
    toolTurnContent (ToolResultEntry.success tc.id tc.name deleteSuccess) =
      some (stringify deleteSuccess) := by
  have hexec : execToolCall sv s tc = (sNext, Except.ok deleteSuccess) := by
    simp [execToolCall, hname, hdel, Except.map]
  refine ⟨hexec, ?_, by simp [toolTurnContent, jsTruthy, deleteSuccess]⟩
  simp [handleToolCalls, hexec, mkEntry]

/-- Witness for C10: a delete fetch answered with status 404 (event not
found) still yields the fixed success object. -/
theorem deleteEvent_ignores_status_w :
    execToolCall services404 () tcDel = ((), Except.ok deleteSuccess) :=
  (deleteEvent_ignores_status services404 () () tcDel 404 rfl rfl).1

/-- C4: on every LLM call failure — transport error, non-2xx response status,
unparseable body, or a body without choices — getChatResponse returns the
fixed, non-empty sorryMessage with no tool calls instead of crashing, and an
exchange whose LLM calls all fail this way still completes, answering the
caller with that fixed apologetic assistant message. -/
theorem getChatResponse_failure_fallback (apiKey : Bool) (parse : String → Option Json)
    (outcome : FetchOutcome) (h : llmFailure outcome) :
    getChatResponse apiKey parse outcome = { content := sorryMessage, toolCalls := none } ∧
    sorryMessage ≠ "" ∧
    ∀ (hasToken : Bool) (history : List Msg) (text : String),
      (chatExchange (fun (t : Unit) _ _ => (t, getChatResponse apiKey parse outcome))
          trivialServices () () hasToken history text).1.response =
        some (assistantMsg sorryMessage) := by
  have hfall : getChatResponse apiKey parse outcome =
      { content := sorryMessage, toolCalls := none } := by
    cases apiKey with
    | false => rfl
    | true =>
      cases outcome with
      | transportError m => rfl
      | httpResponse ok status body =>
        simp only [llmFailure] at h
        rcases h with hok | ⟨e, he⟩ | ⟨b, hb, hc⟩
        · subst hok; rfl
        · subst he; cases ok <;> rfl
        · subst hb
          cases ok with
          | false => rfl
          | true => simp [getChatResponse, hc]
  refine ⟨hfall, by decide, ?_⟩
  intro hasToken history text
  simp [chatExchange, hfall, getLast_append_single]

/-- Witness for C4 at a concrete 500 response: the fixed apologetic message
comes back. -/
theorem getChatResponse_failure_fallback_w :
    getChatResponse true parseNone outcome500 =
      { content := sorryMessage, toolCalls := none } :=
  (getChatResponse_failure_fallback true parseNone outcome500 (Or.inl rfl)).1

/-- C9: a tool-call request whose arguments string is absent, empty or fails
to parse as JSON is given the empty object as its arguments, and the reply
is still processed normally: getChatResponse returns the full parsed
tool-call list (one entry per upstream call, no error), with the offending
call's arguments equal to the empty object. -/
theorem malformed_arguments_become_empty_object
    (parse : String → Option Json) (status : Nat) (b : UpstreamBody)
    (ch : UpstreamChoice) (rest : List UpstreamChoice) (m : UpstreamChoiceMsg)
    (tcs : List UpstreamToolCall) (i : Nat)
    (hch : b.choices = some (ch :: rest)) (hm : ch.message = some m)
    (htc : m.tool_calls = some tcs) (_hi : i < tcs.length)
    (hbad : (tcs.getD i dUp).function.bind (fun f => f.arguments) = none ∨
            ∃ s, (tcs.getD i dUp).function.bind (fun f => f.arguments) = some s ∧
                 (s = "" ∨ parse s = none)) :
    (getChatResponse true parse (FetchOutcome.httpResponse true status (Except.ok b))).toolCalls =
      some (tcs.map (parseUpstreamToolCall parse)) ∧
    (parseUpstreamToolCall parse (tcs.getD i dUp)).arguments = Json.obj [] := by
  constructor
  · simp [getChatResponse, hch, hm, htc]
  · show safeParseJson parse ((tcs.getD i dUp).function.bind (fun f => f.arguments)) =
      Json.obj []
    rcases hbad with hnone | ⟨s, hs, hrest⟩
    · rw [hnone]; rfl
    · rw [hs]
      rcases hrest with hempty | hfail
      · subst hempty; rfl
      · simp [safeParseJson, hfail]

/-- Witness for C9 at a concrete reply whose only tool call carries the
arguments string "not json": the call comes through with empty-object
arguments. -/
theorem malformed_arguments_become_empty_object_w :
    (getChatResponse true parseNone outcomeBadArgs).toolCalls =
      some [{ id := "call1", name := some "send_email", arguments := Json.obj [] }] ∧
    (parseUpstreamToolCall parseNone upBadCall).arguments = Json.obj [] := by
  have h := malformed_arguments_become_empty_object parseNone 200 bodyBadArgs
    { message := some { content := none, tool_calls := some [upBadCall] } } []
    { content := none, tool_calls := some [upBadCall] } [upBadCall] 0
    rfl rfl rfl (by decide) (Or.inr ⟨"not json", rfl, Or.inr rfl⟩)
  exact ⟨h.1, h.2⟩

/-- C3: with the LLM oracle instrumented to log the tools argument of each
call, every exchange makes at most two LLM calls; the first passes the tool
schema exactly when the user has a token, every later call passes none
(getChatResponse is invoked without the tools argument on the follow-up
call); tool execution runs at most once per exchange; and the final reply
handed back to the caller is an assistant message without tool calls. -/
theorem chatExchange_second_call_without_tools {σ : Type}
    (f : List Msg → Option (List String) → ChatResult) (sv : Services σ) (s : σ)
    (hasToken : Bool) (history : List Msg) (text : String) :
    ((chatExchange (loggingLLM f) sv [] s hasToken history text).2.1 =
        [if hasToken then some toolDefinitions else none] ∨
      (chatExchange (loggingLLM f) sv [] s hasToken history text).2.1 =
        [if hasToken then some toolDefinitions else none, none]) ∧
    (∀ x ∈ (chatExchange (loggingLLM f) sv [] s hasToken history text).2.1.tail, x = none) ∧
    (chatExchange (loggingLLM f) sv [] s hasToken history text).1.toolRounds ≤ 1 ∧
    (∃ c, (chatExchange (loggingLLM f) sv [] s hasToken history text).1.response =
      some (assistantMsg c)) := by
  rcases hr : (f (history ++ [userMsg text])
      (if hasToken then some toolDefinitions else none)).toolCalls with _ | ⟨_ | ⟨tc, rest⟩⟩
  · refine ⟨Or.inl ?_, ?_, ?_, ?_⟩ <;>
      simp [chatExchange, loggingLLM, hr, getLast_append_single]
  · refine ⟨Or.inl ?_, ?_, ?_, ?_⟩ <;>
      simp [chatExchange, loggingLLM, hr, getLast_append_single]
  · refine ⟨Or.inr ?_, ?_, ?_, ?_⟩ <;>
      simp [chatExchange, loggingLLM, hr, getLast_append_single, getLast_cons_append_single]

/-- Witness for C3 at a concrete oracle that requests three tool calls on the
first reply: the exchange runs at most one tool round. -/
theorem chatExchange_second_call_without_tools_w :
    (chatExchange (loggingLLM fW) trivialServices [] () true [] "hello").1.toolRounds ≤ 1 ∧
    (chatExchange (loggingLLM fW) trivialServices [] () true [] "hello").2.1.getD 1 none =
      none := by
  have h := chatExchange_second_call_without_tools fW trivialServices () true [] "hello"
  refine ⟨h.2.2.1, ?_⟩
  rcases h.1 with h1 | h1 <;> rw [h1] <;> rfl

/-- C2 counterexample: an exchange from an empty stored history whose first
reply carries nine tool calls. The full transcript satisfies the pairing
invariant, the session is truncated to 10 turns, and the truncated list
violates it: the nine kept tool turns have lost the assistant turn that
issued their requests. -/
theorem cexExchange_truncation_splits_pairing :
    cexExchange.stored.length = 10 ∧
    issuerKept cexExchange.messages = true ∧
    issuerKept cexExchange.stored = false := by
  refine ⟨?_, ?_, ?_⟩ <;> decide

/-- C2 amended: after every completed exchange the stored conversation is
messages.slice(-10), a plain suffix of the transcript; this keeps the
assistant turn bearing the exchange's tool calls together with all its tool
turns whenever the reply carried at most 8 tool calls (assistant + k tool
turns + final reply fit in the 10-turn window); with 9 or more calls the
issuing assistant turn is cut off while its tool turns are kept (see the
counterexample), and pairs inherited from earlier exchanges may likewise be
split. -/
theorem chatExchange_small_batch_keeps_pairing {σ τ : Type}
    (llm : τ → List Msg → Option (List String) → τ × ChatResult)
    (sv : Services σ) (t : τ) (s : σ) (history : List Msg) (text : String)
    (calls : List ToolCallReq)
    (h : (llm t (history ++ [userMsg text]) (some toolDefinitions)).2.toolCalls = some calls)
    (hne : calls ≠ []) (hk : calls.length ≤ 8) :
    ∃ pre fin,
      (chatExchange llm sv t s true history text).1.stored =
        pre ++ assistantToolMsg
            (llm t (history ++ [userMsg text]) (some toolDefinitions)).2.content calls ::
          ((handleToolCalls sv s calls).2.map toolMsg ++ [fin]) := by
  obtain ⟨tc, rest, rfl⟩ := List.exists_cons_of_ne_nil hne
  simp only [chatExchange, if_pos, h]
  set A := history ++ [userMsg text] with hA
  set M := assistantToolMsg (llm t A (some toolDefinitions)).2.content (tc :: rest) with hM
  set T := List.map toolMsg (handleToolCalls sv s (tc :: rest)).2 with hT
  set F := assistantMsg (llm (llm t A (some toolDefinitions)).1 (A ++ [M] ++ T) none).2.content
    with hF
  have hTlen : T.length = (tc :: rest).length := by
    rw [hT, List.length_map, handle_len]
  have hassoc : A ++ [M] ++ T ++ [F] = A ++ (M :: (T ++ [F])) := by simp
  have hle : (A ++ (M :: (T ++ [F]))).length - 10 ≤ A.length := by
    simp only [List.length_append, List.length_cons, List.length_nil, hTlen]
    simp only [List.length_cons] at hk
    omega
  refine ⟨A.drop ((A ++ (M :: (T ++ [F]))).length - 10), F, ?_⟩
  rw [hassoc, List.drop_append_of_le_length hle]

/-- Witness for the amended C2 at a concrete exchange whose reply carries
three tool calls: the issuing assistant turn and all three tool turns
survive truncation together. -/
theorem chatExchange_small_batch_keeps_pairing_w :
    ∃ pre fin,
      (chatExchange cexLLM3 trivialServices () () true [] "hi").1.stored =
        pre ++ assistantToolMsg
            (cexLLM3 () ([] ++ [userMsg "hi"]) (some toolDefinitions)).2.content threeCalls ::
          ((handleToolCalls trivialServices () threeCalls).2.map toolMsg ++ [fin]) :=
  chatExchange_small_batch_keeps_pairing cexLLM3 trivialServices () () [] "hi" threeCalls rfl
    (by intro hcon; have hl := congrArg List.length hcon; simp [threeCalls] at hl)
    (by decide)

/-- C5: evaluation of formatMessages at the failing input — a tool turn
immediately preceded by an assistant turn that bears NO tool calls. The
guard of the source checks only that the previous kept message had role
assistant, so the orphan tool turn is forwarded upstream unchanged, although
the claim (and the source's own comment, "Ensure tool messages only come
after assistant messages with tool calls") requires it to be dropped. -/
theorem formatMessages_forwards_orphan_tool_turn :
    formatMessages ex5 = [assistantPlain, toolOrphan] ∧
    assistantPlain.tool_calls = none ∧ toolOrphan.role = Role.tool := by
  refine ⟨?_, rfl, rfl⟩ ; decide

/-- C6 counterexample: searching the catalog with the empty string returns
all eight descriptors (the empty string is a substring of every string), not
an empty sequence as the claim states. -/
theorem searchIntegrationFunction_empty_query_returns_all :
    ToolService.searchIntegrationFunction "" = ToolService.functions ∧
    ToolService.functions.length = 8 := by
  refine ⟨?_, rfl⟩ ; decide

/-- C6 amended: search returns exactly the descriptors whose name,
description or category contains the query case-insensitively as a
substring; a term matching no descriptor yields the empty sequence, and the
empty query — a substring of everything — yields the full catalog. In no
case is an error produced (the function is total). -/
theorem searchIntegrationFunction_filter_semantics :
    (∀ q fn, fn ∈ ToolService.searchIntegrationFunction q ↔
      (fn ∈ ToolService.functions ∧
        (ToolService.containsCI fn.name q || ToolService.containsCI fn.description q ||
          ToolService.containsCI fn.category q) = true)) ∧
    ToolService.searchIntegrationFunction "" = ToolService.functions ∧
    ToolService.searchIntegrationFunction "weather" = [] := by
  refine ⟨?_, by decide, by decide⟩
  intro q fn
  simp [ToolService.searchIntegrationFunction, List.mem_filter]

/-- Witness for the amended C6: the sendEmail descriptor is found by a
query matching its category. -/
theorem searchIntegrationFunction_filter_semantics_w :
    ToolService.functions.getD 1 dFn ∈ ToolService.searchIntegrationFunction "gmail" :=
  (searchIntegrationFunction_filter_semantics.1 "gmail"
    (ToolService.functions.getD 1 dFn)).mpr ⟨by decide, by decide⟩

theorem callIntegrationFunction_sendEmail_unfold
    (collab : ToolService.CollabCall → Except String Json) (params : Json) :
    ToolService.callIntegrationFunction collab "sendEmail" params =
      if !jsTruthy (jget params "to") || !jsTruthy (jget params "subject") ||
          !jsTruthy (jget params "body") then
        (Except.error "Missing required parameters: to, subject, body", [])
      else
        (collab (ToolService.CollabCall.sendEmail (jget params "to") (jget params "subject")
            (jget params "body")),
         [ToolService.CollabCall.sendEmail (jget params "to") (jget params "subject")
            (jget params "body")]) := rfl

/-- C7: for a sendEmail executor call, if to, subject and body are all
present and non-empty (JavaScript-truthy), the mail collaborator's send is
invoked exactly once, with exactly those three values, and its receipt is
returned; if any of the three is missing or empty, the call fails with the
missing-parameter error and the collaborator is invoked zero times. -/
theorem callIntegrationFunction_sendEmail_roundtrip
    (collab : ToolService.CollabCall → Except String Json) (params : Json) :
    ((jsTruthy (jget params "to") = true ∧ jsTruthy (jget params "subject") = true ∧
        jsTruthy (jget params "body") = true) →
      (ToolService.callIntegrationFunction collab "sendEmail" params).2 =
          [ToolService.CollabCall.sendEmail (jget params "to") (jget params "subject")
            (jget params "body")] ∧
        (ToolService.callIntegrationFunction collab "sendEmail" params).1 =
          collab (ToolService.CollabCall.sendEmail (jget params "to") (jget params "subject")
            (jget params "body"))) ∧
    ((jsTruthy (jget params "to") = false ∨ jsTruthy (jget params "subject") = false ∨
        jsTruthy (jget params "body") = false) →
      (ToolService.callIntegrationFunction collab "sendEmail" params).1 =
          Except.error "Missing required parameters: to, subject, body" ∧
        (ToolService.callIntegrationFunction collab "sendEmail" params).2 = []) := by
  rw [callIntegrationFunction_sendEmail_unfold]
  constructor
  · rintro ⟨h1, h2, h3⟩
    simp [h1, h2, h3]
  · rintro (h | h | h) <;> simp [h]

/-- Witness for C7: with all three fields present the collaborator receives
exactly one send; with subject and body missing the call errors and the
collaborator is never invoked. -/
theorem callIntegrationFunction_sendEmail_roundtrip_w :
    (ToolService.callIntegrationFunction collabNull "sendEmail" paramsAll).2 =
      [ToolService.CollabCall.sendEmail (Json.str "ada@example.org") (Json.str "Hello")
        (Json.str "Hi there")] ∧
    (ToolService.callIntegrationFunction collabNull "sendEmail" paramsMissing).1 =
      Except.error "Missing required parameters: to, subject, body" ∧
    (ToolService.callIntegrationFunction collabNull "sendEmail" paramsMissing).2 = [] := by
  refine ⟨?_, ?_, ?_⟩
  · exact ((callIntegrationFunction_sendEmail_roundtrip collabNull paramsAll).1
      ⟨rfl, rfl, rfl⟩).1
  · exact ((callIntegrationFunction_sendEmail_roundtrip collabNull paramsMissing).2
      (Or.inr (Or.inl rfl))).1
  · exact ((callIntegrationFunction_sendEmail_roundtrip collabNull paramsMissing).2
      (Or.inr (Or.inl rfl))).2
